import Mathlib

set_option autoImplicit false

namespace IceBeat

/-! ## Data model (`src/icebeat/model.py`)

The `Filter` enum and the `Guild` and `Whitelist` dataclasses, exactly as
declared in `model.py`.  Note that the declared `Guild` dataclass fields are
`id`, `text_channel`, `text_channel_id`, `filter`, `volume`, `auto_leave`,
`optional_search` — it has no `shuffle` or `loop` field, while other modules
construct it with `shuffle=`/`loop=` keywords. -/

/-- The `Filter` enum of `model.py` (values 0..6). -/
inductive Filter where
  | normal
  | bassboost
  | pop
  | soft
  | treblebass
  | eightd
  | karaoke
  deriving DecidableEq, Repr

/-- Enum value of a `Filter` member (`Filter.<member>.value`). -/
def Filter.value : Filter → Nat
  | .normal => 0
  | .bassboost => 1
  | .pop => 2
  | .soft => 3
  | .treblebass => 4
  | .eightd => 5
  | .karaoke => 6

/-- Python `Filter(v)` enum lookup by value; `none` models the `ValueError`
raised for a value that is not a member. -/
def Filter.ofValue : Nat → Option Filter
  | 0 => some .normal
  | 1 => some .bassboost
  | 2 => some .pop
  | 3 => some .soft
  | 4 => some .treblebass
  | 5 => some .eightd
  | 6 => some .karaoke
  | _ => none

/-- The `Guild` dataclass of `model.py`, with exactly its declared fields. -/
structure Guild where
  id : Int
  text_channel : Bool
  text_channel_id : Option Int
  filter : Filter
  volume : Int
  auto_leave : Bool
  optional_search : Bool
  deriving DecidableEq, Repr

/-- Declared field names of the `Guild` dataclass, in declaration order.
All of them are required: none has a default value in `model.py`. -/
def Guild.fieldNames : List String :=
  ["id", "text_channel", "text_channel_id", "filter", "volume",
   "auto_leave", "optional_search"]

/-- A Python value as it appears at the `Guild` construction sites. -/
inductive PyValue where
  | int (n : Int)
  | bool (b : Bool)
  | filt (f : Filter)
  | pynone
  deriving DecidableEq, Repr

def PyValue.asInt : PyValue → Option Int
  | .int n => some n
  | _ => none

def PyValue.asBool : PyValue → Option Bool
  | .bool b => some b
  | _ => none

def PyValue.asFilt : PyValue → Option Filter
  | .filt f => some f
  | _ => none

def PyValue.asOptInt : PyValue → Option (Option Int)
  | .int n => some (some n)
  | .pynone => some none
  | _ => none

/-- Python keyword construction `Guild(k1=v1, ..., kn=vn)` of the dataclass.
Per Python call semantics the call raises `TypeError` (modelled as `none`)
when a supplied keyword is not a declared field ("unexpected keyword
argument") or when a required field is not supplied ("missing required
argument"); otherwise every declared field is bound to its supplied value. -/
def Guild.fromKwargs (kw : List (String × PyValue)) : Option Guild := do
  guard (kw.all fun p => Guild.fieldNames.contains p.1)
  let id ← (List.lookup "id" kw).bind PyValue.asInt
  let text_channel ← (List.lookup "text_channel" kw).bind PyValue.asBool
  let text_channel_id ← (List.lookup "text_channel_id" kw).bind PyValue.asOptInt
  let filter ← (List.lookup "filter" kw).bind PyValue.asFilt
  let volume ← (List.lookup "volume" kw).bind PyValue.asInt
  let auto_leave ← (List.lookup "auto_leave" kw).bind PyValue.asBool
  let optional_search ← (List.lookup "optional_search" kw).bind PyValue.asBool
  pure { id, text_channel, text_channel_id, filter, volume, auto_leave,
         optional_search }

/-- The `Whitelist` dataclass of `model.py` (a set of guild ids). -/
structure Whitelist where
  guild_ids : Finset Int
  deriving DecidableEq

/-! ## Durable storage (`src/icebeat/storage.py`)

The SQLite `guilds` table row and the upsert statements of
`SQLiteStorage`, modelled over an association list keyed by guild id
(`id` carries a unique constraint). -/

/-- A row of the `guilds` table (schema columns per spec section 6). -/
structure GuildsRow where
  text_channel : Bool
  text_channel_id : Option Int
  filter : Nat
  volume : Int
  auto_leave : Bool
  shuffle : Bool
  loop : Bool
  deriving DecidableEq, Repr

/-- Modelled from the spec: the `CREATE TABLE` statement for `guilds` is not
under `src/`; per spec section 3 a fresh row gets `filterMode` NORMAL (0),
`volume` mid-range (50), and the boolean flags and optional columns unset. -/
def GuildsRow.defaults : GuildsRow :=
  { text_channel := false
    text_channel_id := none
    filter := 0
    volume := 50
    auto_leave := false
    shuffle := false
    loop := false }

/-- The `guilds` table: rows keyed by guild id. -/
def GuildsTable := List (Int × GuildsRow)

/-- Row lookup by id (`SELECT ... WHERE id = ?`). -/
def GuildsTable.findRow : GuildsTable → Int → Option GuildsRow
  | [], _ => none
  | (i, r) :: rest, guild_id =>
    if i = guild_id then some r else GuildsTable.findRow rest guild_id

/-- Replace the row stored under `guild_id` (first occurrence). -/
def GuildsTable.setRow : GuildsTable → Int → GuildsRow → GuildsTable
  | [], _, _ => []
  | (i, r) :: rest, guild_id, nr =>
    if i = guild_id then (i, nr) :: rest
    else (i, r) :: GuildsTable.setRow rest guild_id nr

/-- Semantics of `INSERT INTO guilds (id, ...) VALUES (...) ON CONFLICT (id)
DO UPDATE SET ...`: if no row with `guild_id` exists, a fresh row is inserted
as the defaults with `f` applied (the inserted columns); on conflict the
existing row is updated with `f`. -/
def GuildsTable.upsert (db : GuildsTable) (guild_id : Int)
    (f : GuildsRow → GuildsRow) : GuildsTable :=
  match db.findRow guild_id with
  | some row => db.setRow guild_id (f row)
  | none => (guild_id, f GuildsRow.defaults) :: db

namespace SQLiteStorage

/-- `SQLiteStorage.get_guild`: selects `filter, volume, auto_leave, shuffle,
loop` from the row and evaluates `Guild(id=guild_id, filter=Filter(row[0]),
volume=row[1], auto_leave=bool(row[2]), shuffle=bool(row[3]),
loop=bool(row[4]))`.  `Filter(row[0])` raises `ValueError` on an unknown enum
value and the keyword construction raises `TypeError` on a keyword/field
mismatch; a raise is modelled as `none`. -/
def get_guild (guild_id : Int) (row : GuildsRow) : Option Guild := do
  let f ← Filter.ofValue row.filter
  Guild.fromKwargs
    [("id", .int guild_id), ("filter", .filt f), ("volume", .int row.volume),
     ("auto_leave", .bool row.auto_leave), ("shuffle", .bool row.shuffle),
     ("loop", .bool row.loop)]

/-- The `INSERT INTO guilds (id) VALUES (?) ON CONFLICT (id) DO NOTHING`
statement issued by `create_guild`: a defaults row springs into existence
unless one is already present. -/
def insert_guild_if_absent (db : GuildsTable) (guild_id : Int) : GuildsTable :=
  match db.findRow guild_id with
  | some _ => db
  | none => (guild_id, GuildsRow.defaults) :: db

/-- `SQLiteStorage.create_guild`: the committed DO-NOTHING insert, then
`return await self.get_guild(guild_id)` — the SELECT reads the row back and
performs the `Guild` dataclass construction, which may raise (and, with the
stale dataclass, always does); `fetchone` on a missing row would yield
`None`, whose subscripting also raises.  A raise is modelled as `none` in
the second component; the first component is the table after the committed
insert. -/
def create_guild (db : GuildsTable) (guild_id : Int) :
    GuildsTable × Option Guild :=
  (insert_guild_if_absent db guild_id,
   match (insert_guild_if_absent db guild_id).findRow guild_id with
   | some row => get_guild guild_id row
   | none => none)

/-- `SQLiteStorage.set_guild_volume`: upsert writing the `volume` column
exactly as supplied (no clamping appears in the statement). -/
def set_guild_volume (db : GuildsTable) (guild_id : Int) (volume : Int) :
    GuildsTable :=
  db.upsert guild_id fun r => { r with volume := volume }

/-- `SQLiteStorage.set_guild_auto_leave`: upsert writing `auto_leave`. -/
def set_guild_auto_leave (db : GuildsTable) (guild_id : Int)
    (auto_leave : Bool) : GuildsTable :=
  db.upsert guild_id fun r => { r with auto_leave := auto_leave }

/-- `SQLiteStorage.switch_guild_shuffle`: `INSERT INTO guilds (id) VALUES (?)
ON CONFLICT (id) DO UPDATE SET shuffle = NOT shuffle RETURNING shuffle`.
On a fresh insert there is no conflict, so the defaults row is inserted and
its `shuffle` returned; on conflict `shuffle` is flipped and the new value
returned. -/
def switch_guild_shuffle (db : GuildsTable) (guild_id : Int) :
    GuildsTable × Bool :=
  match db.findRow guild_id with
  | some row =>
    let nr := { row with shuffle := !row.shuffle }
    (db.setRow guild_id nr, nr.shuffle)
  | none =>
    ((guild_id, GuildsRow.defaults) :: db, GuildsRow.defaults.shuffle)

/-- `SQLiteStorage.switch_guild_loop`: same statement with `loop`. -/
def switch_guild_loop (db : GuildsTable) (guild_id : Int) :
    GuildsTable × Bool :=
  match db.findRow guild_id with
  | some row =>
    let nr := { row with loop := !row.loop }
    (db.setRow guild_id nr, nr.loop)
  | none =>
    ((guild_id, GuildsRow.defaults) :: db, GuildsRow.defaults.loop)

/-- `SQLiteStorage.add_to_whitelist`: `INSERT INTO whitelist (guild_id)
VALUES (?) ON CONFLICT (guild_id) DO NOTHING RETURNING TRUE`; `RETURNING`
yields a row exactly when the insert actually happened, so the method
returns whether membership changed. -/
def add_to_whitelist (t : Finset Int) (guild_id : Int) : Finset Int × Bool :=
  if guild_id ∈ t then (t, false) else (insert guild_id t, true)

/-- `SQLiteStorage.remove_from_whitelist`: `DELETE FROM whitelist WHERE
guild_id = ? RETURNING TRUE`; a row is returned exactly when a row was
deleted. -/
def remove_from_whitelist (t : Finset Int) (guild_id : Int) :
    Finset Int × Bool :=
  if guild_id ∈ t then (t.erase guild_id, true) else (t, false)

end SQLiteStorage

/-! ## Volatile cache (`src/icebeat/cache.py`)

`TimedCache` wraps a `cachetools.TTLCache`, keyed by guild ids (ints) and by
the string key `"whitelist"`.  The TTL/capacity eviction of the underlying
map only ever removes entries; it is modelled by the map holding an arbitrary
subset of what was stored, which no theorem below depends on, because the
accessor methods discard the looked-up value (see `TimedCache.get_guild`). -/

/-- A key of the underlying `TTLCache` dict. -/
inductive CacheKey where
  | int (id : Int)
  | str (s : String)
  deriving DecidableEq, Repr

/-- A value stored in the `TTLCache` by `TimedCache`. -/
inductive CacheValue where
  | guild (g : Guild)
  | whitelist (w : Whitelist)
  deriving DecidableEq

/-- The underlying `TTLCache` mapping, as an association list. -/
def TTLMap := List (CacheKey × CacheValue)

def TTLMap.get : TTLMap → CacheKey → Option CacheValue
  | [], _ => none
  | (k1, v) :: rest, k => if k1 = k then some v else TTLMap.get rest k

/-- Dict item assignment `self.cache[k] = v` (overwrites any prior entry). -/
def TTLMap.setItem (m : TTLMap) (k : CacheKey) (v : CacheValue) : TTLMap :=
  (k, v) :: m.filter fun p => p.1 ≠ k

/-- `self.cache.pop(key, default=None)`: removes the entry if present. -/
def TTLMap.pop : TTLMap → CacheKey → TTLMap
  | [], _ => []
  | (k1, v) :: rest, k =>
    if k1 = k then TTLMap.pop rest k else (k1, v) :: TTLMap.pop rest k

/-- The `TimedCache` object of `cache.py`. -/
structure TimedCache where
  entries : Nat
  ttl : Nat
  cache : TTLMap

namespace TimedCache

/-- `TimedCache.get_guild`: the body evaluates `self.cache.get(guild_id,
None)` but contains no `return` statement, so the method falls off its end
and returns `None` whatever the lookup found. -/
def get_guild (c : TimedCache) (guild_id : Int) : Option Guild :=
  let _looked_up := c.cache.get (.int guild_id)
  none

/-- `TimedCache.set_guild`: `self.cache[guild.id] = guild`. -/
def set_guild (c : TimedCache) (g : Guild) : TimedCache :=
  { c with cache := c.cache.setItem (.int g.id) (.guild g) }

/-- `TimedCache.invalidate_guild`: `self.cache.pop(guild_id, default=None)`. -/
def invalidate_guild (c : TimedCache) (guild_id : Int) : TimedCache :=
  { c with cache := c.cache.pop (.int guild_id) }

/-- `TimedCache.get_whitelist`: evaluates the lookup under the reserved
`"whitelist"` key but, like `get_guild`, never returns it. -/
def get_whitelist (c : TimedCache) : Option Whitelist :=
  let _looked_up := c.cache.get (.str "whitelist")
  none

/-- `TimedCache.set_whitelist`: stores under the reserved key. -/
def set_whitelist (c : TimedCache) (w : Whitelist) : TimedCache :=
  { c with cache := c.cache.setItem (.str "whitelist") (.whitelist w) }

/-- `TimedCache.invalidate_whitelist`. -/
def invalidate_whitelist (c : TimedCache) : TimedCache :=
  { c with cache := c.cache.pop (.str "whitelist") }

end TimedCache

/-! ## Cache-aside store (`src/icebeat/store.py`)

`Store` coordinates a `Cache` (instantiated with `TimedCache`) and an
abstract `Storage`.  Each durable call is an `await` that may raise; a
storage operation is modelled as a function into `Except E`.  Each store
setter is modelled as returning the final cache state together with the
outcome, so that the cache state is observable also when the storage call
raises and the exception propagates. -/

/-- The abstract `Storage` interface of `store.py`, restricted to the calls
the store setters and readers issue.  `E` is the exception type of a failed
awaited call. -/
structure Storage (E : Type) where
  create_guild : Int → Except E Guild
  set_guild_staff_role_id : Int → Int → Except E Unit
  set_guild_filter : Int → Filter → Except E Unit
  set_guild_volume : Int → Int → Except E Unit
  set_guild_auto_leave : Int → Bool → Except E Unit
  switch_guild_shuffle : Int → Except E Bool
  switch_guild_loop : Int → Except E Bool
  get_whitelist : Except E Whitelist
  add_to_whitelist : Int → Except E Bool
  remove_from_whitelist : Int → Except E Bool

/-- Python `dataclasses.replace(guild)` with no replaced fields: a fresh copy
carrying the same field values, which in a value semantics is the value
itself. -/
def dataclassesReplace (g : Guild) : Guild := g

namespace Store

variable {E : Type}

/-- `Store.get_guild`: consult the cache; on a miss (`if not guild:`) read
`storage.create_guild`, populate the cache with the result and return a copy
of it.  A raise from the storage call propagates. -/
def get_guild (st : Storage E) (c : TimedCache) (guild_id : Int) :
    Except E (Guild × TimedCache) :=
  match c.get_guild guild_id with
  | some g => .ok (dataclassesReplace g, c)
  | none =>
    match st.create_guild guild_id with
    | .error e => .error e
    | .ok g => .ok (dataclassesReplace g, c.set_guild g)

/-- `Store.get_whitelist`: consult the cache; on a miss read
`storage.get_whitelist`, populate the cache and return a record holding a
copy of the id set. -/
def get_whitelist (st : Storage E) (c : TimedCache) :
    Except E (Whitelist × TimedCache) :=
  match c.get_whitelist with
  | some w => .ok (Whitelist.mk w.guild_ids, c)
  | none =>
    match st.get_whitelist with
    | .error e => .error e
    | .ok w => .ok (Whitelist.mk w.guild_ids, c.set_whitelist w)

/-- `Store.set_guild_staff_role_id`: awaits the durable write, then
invalidates the tenant's cache entry.  Returns the final cache state and the
outcome: on a raise the cache is the untouched input cache. -/
def set_guild_staff_role_id (st : Storage E) (c : TimedCache)
    (guild_id staff_role_id : Int) : TimedCache × Except E Unit :=
  match st.set_guild_staff_role_id guild_id staff_role_id with
  | .error e => (c, .error e)
  | .ok _ => (c.invalidate_guild guild_id, .ok ())

/-- `Store.set_guild_filter`: durable write first, then invalidate. -/
def set_guild_filter (st : Storage E) (c : TimedCache) (guild_id : Int)
    (filter : Filter) : TimedCache × Except E Unit :=
  match st.set_guild_filter guild_id filter with
  | .error e => (c, .error e)
  | .ok _ => (c.invalidate_guild guild_id, .ok ())

/-- `Store.set_guild_volume`: durable write first, then invalidate.  The
volume is passed to storage exactly as received. -/
def set_guild_volume (st : Storage E) (c : TimedCache) (guild_id : Int)
    (volume : Int) : TimedCache × Except E Unit :=
  match st.set_guild_volume guild_id volume with
  | .error e => (c, .error e)
  | .ok _ => (c.invalidate_guild guild_id, .ok ())

/-- `Store.set_guild_auto_leave`: durable write first, then invalidate. -/
def set_guild_auto_leave (st : Storage E) (c : TimedCache) (guild_id : Int)
    (auto_leave : Bool) : TimedCache × Except E Unit :=
  match st.set_guild_auto_leave guild_id auto_leave with
  | .error e => (c, .error e)
  | .ok _ => (c.invalidate_guild guild_id, .ok ())

/-- `Store.switch_guild_shuffle`: durable toggle first, then invalidate,
then return the toggled value. -/
def switch_guild_shuffle (st : Storage E) (c : TimedCache) (guild_id : Int) :
    TimedCache × Except E Bool :=
  match st.switch_guild_shuffle guild_id with
  | .error e => (c, .error e)
  | .ok b => (c.invalidate_guild guild_id, .ok b)

/-- `Store.switch_guild_loop`: durable toggle first, then invalidate, then
return the toggled value. -/
def switch_guild_loop (st : Storage E) (c : TimedCache) (guild_id : Int) :
    TimedCache × Except E Bool :=
  match st.switch_guild_loop guild_id with
  | .error e => (c, .error e)
  | .ok b => (c.invalidate_guild guild_id, .ok b)

/-- `Store.add_to_whitelist` backed by `SQLiteStorage` (successful I/O):
the durable insert, then whitelist-key invalidation, returning whether
membership changed. -/
def add_to_whitelist_sqlite (t : Finset Int) (c : TimedCache)
    (guild_id : Int) : Finset Int × TimedCache × Bool :=
  let (t1, inserted) := SQLiteStorage.add_to_whitelist t guild_id
  (t1, c.invalidate_whitelist, inserted)

/-- `Store.remove_from_whitelist` backed by `SQLiteStorage` (successful
I/O). -/
def remove_from_whitelist_sqlite (t : Finset Int) (c : TimedCache)
    (guild_id : Int) : Finset Int × TimedCache × Bool :=
  let (t1, removed) := SQLiteStorage.remove_from_whitelist t guild_id
  (t1, c.invalidate_whitelist, removed)

/-- `Store.set_guild_volume` backed by `SQLiteStorage` (successful I/O):
the durable upsert of the volume column, then cache invalidation. -/
def set_guild_volume_sqlite (db : GuildsTable) (c : TimedCache)
    (guild_id volume : Int) : GuildsTable × TimedCache :=
  (SQLiteStorage.set_guild_volume db guild_id volume,
   c.invalidate_guild guild_id)

/-- `Store.get_guild` backed by `TimedCache` and `SQLiteStorage`: consult
the cache (whose lookup always misses); on a miss run
`storage.create_guild`, whose committed insert mutates the table; if its
read raises, the exception propagates and the cache is not populated,
otherwise the record is cached and a copy returned.  Result: the table
after the insert, the cache, and the returned record (`none` = the read
raised). -/
def get_guild_sqlite (db : GuildsTable) (c : TimedCache) (guild_id : Int) :
    GuildsTable × TimedCache × Option Guild :=
  match c.get_guild guild_id with
  | some g => (db, c, some (dataclassesReplace g))
  | none =>
    match SQLiteStorage.create_guild db guild_id with
    | (db1, none) => (db1, c, none)
    | (db1, some g) => (db1, c.set_guild g, some (dataclassesReplace g))

end Store

/-! ## Music cog (`src/icebeat/cogs/music.py`)

The queue-manipulating command handlers and the lavalink event listeners,
modelled over the live player state and the SQLite-backed store (the
durable-I/O success path, which is the path the handlers' own logic
exercises). -/

/-- A lavalink audio track as the cog consumes it. -/
structure Track where
  title : String
  uri : String
  duration : Nat
  requester : Int
  deriving DecidableEq, Repr

/-- `lavalink.DefaultPlayer.LOOP_NONE`. -/
def LOOP_NONE : Nat := 0

/-- `lavalink.DefaultPlayer.LOOP_QUEUE`. -/
def LOOP_QUEUE : Nat := 2

/-- The helper `_loop_mode(loop)` of `music.py`. -/
def loopMode (lp : Bool) : Nat := if lp then LOOP_QUEUE else LOOP_NONE

/-- The live per-guild lavalink player state the handlers touch. -/
structure Player where
  queue : List Track
  shuffle : Bool
  loop_mode : Nat
  volume : Int
  deriving DecidableEq, Repr

/-- `_MAX_QUEUE_SIZE` of `music.py`. -/
def MAX_QUEUE_SIZE : Nat := 400

namespace Music

/-- User-visible outcome of the enqueue section of the `play` handler. -/
inductive PlayOutcome where
  | queueFull
  | enqueued (n : Nat)
  deriving DecidableEq, Repr

/-- The enqueue section of `Music.play`, after track resolution: computes
`free_queue_slots = _MAX_QUEUE_SIZE - len(player.queue)`; when it is zero the
request is rejected with the capacity embed and nothing is enqueued;
otherwise `min(free_queue_slots, len(tracks))` tracks are appended. -/
def playEnqueue (queue : List Track) (tracks : List Track) :
    PlayOutcome × List Track :=
  let free := MAX_QUEUE_SIZE - queue.length
  if free = 0 then (.queueFull, queue)
  else
    let n := min free tracks.length
    (.enqueued n, queue ++ tracks.take n)

/-- User-visible outcome of the `jump` handler.  `rangeRejected` is the
command layer refusing a position below the declared
`app_commands.Range[int, 1, None]` lower bound. -/
inductive JumpOutcome where
  | rangeRejected
  | emptyQueue
  | outOfRange (size : Nat)
  | jumped (t : Option Track)
  deriving DecidableEq, Repr

/-- The `Music.jump` handler.  Positions are 1-indexed; a position below 1
never reaches the handler (Range rejection), an empty queue or a position
beyond the queue length is reported with the queue untouched; in range the
queue is cut to `queue[position - 1:]` and `player.skip()` then starts the
reported head track. -/
def jump (queue : List Track) (position : Nat) : JumpOutcome × List Track :=
  if position < 1 then (.rangeRejected, queue)
  else if queue = [] then (.emptyQueue, queue)
  else if position ≤ queue.length then
    let q := if 1 < position then queue.drop (position - 1) else queue
    (.jumped q.head?, q)
  else (.outOfRange queue.length, queue)

/-- User-visible outcome of the `pop` handler. -/
inductive PopOutcome where
  | rangeRejected
  | emptyQueue
  | outOfRange (size : Nat)
  | popped (t : Option Track)
  deriving DecidableEq, Repr

/-- The `Music.pop` handler: 1-indexed; out-of-range positions are reported
with the queue untouched; in range `player.queue.pop(position - 1)` removes
exactly the track at the given position, which is reported. -/
def pop (queue : List Track) (position : Nat) : PopOutcome × List Track :=
  if position < 1 then (.rangeRejected, queue)
  else if queue = [] then (.emptyQueue, queue)
  else if position ≤ queue.length then
    (.popped queue[position - 1]?, queue.eraseIdx (position - 1))
  else (.outOfRange queue.length, queue)

/-- The `Music.shuffle` handler (durable-I/O success path): calls
`store.switch_guild_shuffle`, which toggles the durable `shuffle` column and
invalidates the cache entry, then applies `player.set_shuffle(shuffle)` to
the live player if one exists.  Returns the new states and the reported
value. -/
def shuffle (db : GuildsTable) (c : TimedCache) (player : Option Player)
    (guild_id : Int) : GuildsTable × TimedCache × Option Player × Bool :=
  let (db1, sh) := SQLiteStorage.switch_guild_shuffle db guild_id
  let c1 := c.invalidate_guild guild_id
  let player1 := player.map fun p => { p with shuffle := sh }
  (db1, c1, player1, sh)

/-- The `Music.loop` handler (durable-I/O success path) as written in the
source: it calls `store.switch_guild_shuffle` — not `switch_guild_loop` —
and then applies `player.set_loop(_loop_mode(value))` to the live player if
one exists. -/
def loop (db : GuildsTable) (c : TimedCache) (player : Option Player)
    (guild_id : Int) : GuildsTable × TimedCache × Option Player × Bool :=
  let (db1, lp) := SQLiteStorage.switch_guild_shuffle db guild_id
  let c1 := c.invalidate_guild guild_id
  let player1 := player.map fun p => { p with loop_mode := loopMode lp }
  (db1, c1, player1, lp)

/-- An exception escaping a listener routine. -/
inductive PyExc where
  | typeError
  deriving DecidableEq, Repr

/-- The bot-side state the event listeners read and drive: the durable
table, the store's cache, whether `bot.get_guild(guild_id)` still finds the
guild, and whether the voice presence (voice client/session) is held. -/
structure PresenceState where
  db : GuildsTable
  cache : TimedCache
  guildExists : Bool
  connected : Bool

/-- `Music._decide_bot_presence`: if the guild is gone, return; otherwise
evaluate `(await self._bot.store.get_guild(guild_id)).auto_leave` and, when
the flag is set, disconnect the voice client.  The store read runs the
committed default-row insert and then the `Guild` construction; if that
construction raises (with the stale dataclass it always does), the
exception propagates out of the routine before `auto_leave` is read, so
neither branch of the disconnect decision runs.  Result: the state after
the routine and the exception it raised, if any. -/
def decide_bot_presence (s : PresenceState) (guild_id : Int) :
    PresenceState × Option PyExc :=
  if s.guildExists = false then (s, none)
  else
    match Store.get_guild_sqlite s.db s.cache guild_id with
    | (db1, c1, none) => ({ s with db := db1, cache := c1 }, some .typeError)
    | (db1, c1, some g) =>
      if g.auto_leave then
        ({ s with db := db1, cache := c1, connected := false }, none)
      else ({ s with db := db1, cache := c1 }, none)

/-- `Music.on_queue_end`: the queue-ended listener delegates to
`_decide_bot_presence`. -/
def on_queue_end (s : PresenceState) (guild_id : Int) :
    PresenceState × Option PyExc :=
  decide_bot_presence s guild_id

/-- Outcome of the single `await player.play()` advance attempt issued by
the track-load-failed listener. -/
inductive PlayAttempt where
  | ok
  | raised
  deriving DecidableEq, Repr

/-- `Music.on_track_load_failed`: if the guild is gone the player is
destroyed and nothing further happens; otherwise exactly one
`await player.play()` advance attempt is made (`try` around a single call,
no retry); if it raises, the listener logs and falls back to
`_decide_bot_presence`, whose own exception, if any, propagates out of the
listener.  Result: the state, the number of advance attempts made, and the
escaping exception, if any. -/
def on_track_load_failed (s : PresenceState) (guild_id : Int)
    (attempt : PlayAttempt) : PresenceState × Nat × Option PyExc :=
  if s.guildExists = false then (s, 0, none)
  else
    match attempt with
    | .ok => (s, 1, none)
    | .raised =>
      ((decide_bot_presence s guild_id).1, 1,
       (decide_bot_presence s guild_id).2)

/-- The command layer's `app_commands.Range[int, 0, 100]` declared on the
`volume` command's `level` argument: discord rejects an out-of-range value
before the handler runs (it does not clamp). -/
def volumeCommandAccepts (level : Int) : Bool :=
  decide (0 ≤ level) && decide (level ≤ 100)

end Music

/-! ## Concrete fixtures used by witnesses and counterexamples -/

/-- A well-formed `Guild` record. -/
def guildA : Guild :=
  { id := 1, text_channel := false, text_channel_id := none,
    filter := .normal, volume := 50, auto_leave := false,
    optional_search := false }

/-- A `TimedCache` as built by the bot (capacity and TTL from config). -/
def cacheEmpty : TimedCache := { entries := 100, ttl := 60, cache := [] }

def trackA : Track := { title := "a", uri := "ua", duration := 1000, requester := 1 }

def trackB : Track := { title := "b", uri := "ub", duration := 2000, requester := 2 }

/-- A storage stub whose awaited calls all succeed. -/
def storageOk : Storage Unit :=
  { create_guild := fun _ => .ok guildA
    set_guild_staff_role_id := fun _ _ => .ok ()
    set_guild_filter := fun _ _ => .ok ()
    set_guild_volume := fun _ _ => .ok ()
    set_guild_auto_leave := fun _ _ => .ok ()
    switch_guild_shuffle := fun _ => .ok true
    switch_guild_loop := fun _ => .ok true
    get_whitelist := .ok ⟨∅⟩
    add_to_whitelist := fun _ => .ok true
    remove_from_whitelist := fun _ => .ok true }

/-- A storage stub whose awaited calls all raise. -/
def storageErr : Storage Unit :=
  { create_guild := fun _ => .error ()
    set_guild_staff_role_id := fun _ _ => .error ()
    set_guild_filter := fun _ _ => .error ()
    set_guild_volume := fun _ _ => .error ()
    set_guild_auto_leave := fun _ _ => .error ()
    switch_guild_shuffle := fun _ => .error ()
    switch_guild_loop := fun _ => .error ()
    get_whitelist := .error ()
    add_to_whitelist := fun _ => .error ()
    remove_from_whitelist := fun _ => .error () }

/-! ## Helper lemmas -/

/-- Popping a key removes that entry and preserves every other one. -/
theorem TTLMap.get_pop (m : TTLMap) (k k1 : CacheKey) :
    (m.pop k).get k1 = if k1 = k then none else m.get k1 := by
  induction m with
  | nil => simp [TTLMap.pop, TTLMap.get]
  | cons p rest ih =>
    obtain ⟨pk, pv⟩ := p
    by_cases hk : pk = k
    · have e1 : TTLMap.pop ((pk, pv) :: rest) k = TTLMap.pop rest k := by
        simp [TTLMap.pop, hk]
      rw [e1, ih]
      by_cases h1 : k1 = k
      · simp [h1]
      · have h2 : ¬pk = k1 := fun hc => h1 (hc ▸ hk)
        simp [TTLMap.get, h1, h2]
    · have e1 : TTLMap.pop ((pk, pv) :: rest) k = (pk, pv) :: TTLMap.pop rest k := by
        simp [TTLMap.pop, hk]
      rw [e1]
      by_cases h1 : pk = k1
      · have h2 : ¬k1 = k := fun hc => hk (h1.trans hc)
        simp [TTLMap.get, h1, h2]
      · simp [TTLMap.get, h1, ih]

/-- Replacing a present row makes the new row the one found. -/
theorem GuildsTable.findRow_setRow (db : GuildsTable) (gid : Int)
    (nr : GuildsRow) (h : (db.findRow gid).isSome = true) :
    (db.setRow gid nr).findRow gid = some nr := by
  induction db with
  | nil => simp [GuildsTable.findRow] at h
  | cons p rest ih =>
    obtain ⟨i, r⟩ := p
    by_cases hg : i = gid
    · subst hg
      simp [GuildsTable.setRow, GuildsTable.findRow]
    · have h2 : (GuildsTable.findRow rest gid).isSome = true := by
        simpa [GuildsTable.findRow, hg] using h
      simpa [GuildsTable.setRow, GuildsTable.findRow, hg] using ih h2

/-- The row found after an upsert is the updated (or freshly inserted)
row. -/
theorem GuildsTable.findRow_upsert (db : GuildsTable) (gid : Int)
    (f : GuildsRow → GuildsRow) :
    (db.upsert gid f).findRow gid =
      some (f ((db.findRow gid).getD GuildsRow.defaults)) := by
  unfold GuildsTable.upsert
  cases h : db.findRow gid with
  | none => simp [h, GuildsTable.findRow]
  | some row =>
    simpa [h] using GuildsTable.findRow_setRow db gid (f row) (by simp [h])

/-- The `Guild` construction in `SQLiteStorage.get_guild` supplies the
keywords `shuffle` and `loop`, which the dataclass does not declare, so the
read raises for every row. -/
theorem SQLiteStorage.get_guild_raises (guild_id : Int) (row : GuildsRow) :
    SQLiteStorage.get_guild guild_id row = none := by
  unfold SQLiteStorage.get_guild
  cases h : Filter.ofValue row.filter with
  | none => rfl
  | some f => simp [Guild.fromKwargs, Guild.fieldNames]

/-- Hence `SQLiteStorage.create_guild` raises on every call (after its
committed insert). -/
theorem SQLiteStorage.create_guild_raises (db : GuildsTable) (gid : Int) :
    (SQLiteStorage.create_guild db gid).2 = none := by
  unfold SQLiteStorage.create_guild
  cases h : (SQLiteStorage.insert_guild_if_absent db gid).findRow gid with
  | none => simp [h]
  | some row => simp [h, SQLiteStorage.get_guild_raises]

/-- Hence the SQLite-backed `Store.get_guild` always takes the miss path,
runs the insert, and propagates the raise without touching the cache. -/
theorem Store.get_guild_sqlite_raises (db : GuildsTable) (c : TimedCache)
    (gid : Int) :
    Store.get_guild_sqlite db c gid =
      ((SQLiteStorage.create_guild db gid).1, c, none) := by
  have h2 := SQLiteStorage.create_guild_raises db gid
  unfold Store.get_guild_sqlite
  cases hcg : SQLiteStorage.create_guild db gid with
  | mk db1 res =>
    rw [hcg] at h2
    simp only at h2
    subst h2
    simp [TimedCache.get_guild]

/-- Hence `_decide_bot_presence` on an existing guild always raises before
the auto-leave flag is read: the state keeps its connection and cache, only
the committed insert has happened. -/
theorem Music.decide_bot_presence_raises (db : GuildsTable) (c : TimedCache)
    (co : Bool) (gid : Int) :
    Music.decide_bot_presence ⟨db, c, true, co⟩ gid =
      (⟨(SQLiteStorage.create_guild db gid).1, c, true, co⟩,
       some .typeError) := by
  simp [Music.decide_bot_presence, Store.get_guild_sqlite_raises]

/-- Sanity check of the keyword-construction model: a call supplying
exactly the declared fields of the dataclass does build the record. -/
theorem Guild.fromKwargs_declared_fields_ok :
    Guild.fromKwargs
      [("id", .int 1), ("text_channel", .bool false),
       ("text_channel_id", .pynone), ("filter", .filt .normal),
       ("volume", .int 50), ("auto_leave", .bool false),
       ("optional_search", .bool false)] = some guildA := by decide

/-! ## Claim theorems -/

/-- C1: the claim is right and the code is wrong.  `Store.get_guild` on a
cache miss does create the default row and read it back, but the `Guild`
record the claim says is returned cannot be built: the `Guild` dataclass of
`model.py` declares no `shuffle` or `loop` field (and requires
`text_channel`, `text_channel_id` and `optional_search`, which the call does
not supply), so the keyword construction inside `SQLiteStorage.get_guild`
raises `TypeError` on every read — it never returns normally, not even under
a successful durable read of any row. -/
theorem c1_get_guild_always_raises (guild_id : Int) (row : GuildsRow) :
    SQLiteStorage.get_guild guild_id row = none :=
  SQLiteStorage.get_guild_raises guild_id row

/-- C2: confirmed.  `TimedCache.get_guild` and `TimedCache.get_whitelist`
perform the TTLCache lookup but never return it, so both always report
absent — in particular an entry just stored by `set_guild` is never served —
and `Store.get_guild` and `Store.get_whitelist` always take the cache-miss
path: their result is exactly the durable read (with its cache
population). -/
theorem c2_cache_reads_always_miss {E : Type} (st : Storage E)
    (c : TimedCache) (g : Guild) (guild_id : Int) :
    TimedCache.get_guild c guild_id = none ∧
    TimedCache.get_whitelist c = none ∧
    (TimedCache.set_guild c g).get_guild guild_id = none ∧
    Store.get_guild st c guild_id =
      (match st.create_guild guild_id with
       | .error e => .error e
       | .ok g0 => .ok (g0, c.set_guild g0)) ∧
    Store.get_whitelist st c =
      (match st.get_whitelist with
       | .error e => .error e
       | .ok w => .ok (Whitelist.mk w.guild_ids, c.set_whitelist w)) :=
  ⟨rfl, rfl, rfl, rfl, rfl⟩

/-- C3: the claim is right and the code is wrong.  The `Music.loop` handler
calls `store.switch_guild_shuffle` instead of `switch_guild_loop` (while its
own embed says "Loop mode has been ..." and it applies the value through
`player.set_loop`), so on guild 1 with its default row (both flags false)
the loop command leaves the durable `loop` field unchanged, flips the
durable `shuffle` field to true, and applies the flipped shuffle value as
the live player's loop mode. -/
theorem c3_loop_command_flips_shuffle_not_loop :
    ((Music.loop [(1, GuildsRow.defaults)] cacheEmpty
        (some { queue := [], shuffle := false, loop_mode := LOOP_NONE,
                volume := 50 }) 1).1.findRow 1).map GuildsRow.loop =
      some false ∧
    ((Music.loop [(1, GuildsRow.defaults)] cacheEmpty
        (some { queue := [], shuffle := false, loop_mode := LOOP_NONE,
                volume := 50 }) 1).1.findRow 1).map GuildsRow.shuffle =
      some true ∧
    (Music.loop [(1, GuildsRow.defaults)] cacheEmpty
        (some { queue := [], shuffle := false, loop_mode := LOOP_NONE,
                volume := 50 }) 1).2.2.1 =
      some { queue := [], shuffle := false, loop_mode := LOOP_QUEUE,
             volume := 50 } ∧
    (Music.loop [(1, GuildsRow.defaults)] cacheEmpty
        (some { queue := [], shuffle := false, loop_mode := LOOP_NONE,
                volume := 50 }) 1).2.2.2 = true := by decide

/-- C4 counterexample: writing volume 150 for tenant 1 through
`Store.set_guild_volume` stores 150 durably, not the claimed clamped 100 —
no clamping happens at the store's write boundary. -/
theorem c4_counterexample_volume_150_stored_unclamped :
    ((Store.set_guild_volume_sqlite [] cacheEmpty 1 150).1.findRow 1).map
        GuildsRow.volume = some 150 ∧ (150 : Int) ≠ 100 := by decide

/-- C4 amended: for every tenant ID and volume value written through
`Store.set_guild_volume`, the value durably stored is exactly the value
passed, unclamped; the declared 0-100 range is enforced only at the command
argument layer, which rejects an out-of-range value such as 150 instead of
clamping it. -/
theorem c4_store_volume_stored_unclamped (db : GuildsTable) (c : TimedCache)
    (guild_id v : Int) :
    ((Store.set_guild_volume_sqlite db c guild_id v).1.findRow guild_id).map
        GuildsRow.volume = some v ∧
    Music.volumeCommandAccepts 150 = false := by
  constructor
  · simp [Store.set_guild_volume_sqlite, SQLiteStorage.set_guild_volume,
      GuildsTable.findRow_upsert]
  · decide

/-- C5: confirmed.  Every `Store` field setter (staff role, filter, volume,
auto-leave, shuffle, loop) awaits the durable write first; only when that
write returns successfully is the tenant's cache entry invalidated —
removed, never set to the new value (the entry is gone afterwards, every
other entry untouched) — and when the durable write raises, the exception
propagates to the caller with the cache left exactly as it was. -/
theorem c5_setters_write_through_then_invalidate {E : Type} (st : Storage E)
    (c : TimedCache) (guild_id staff_role_id : Int) (f : Filter) (v : Int)
    (al b : Bool) (e : E) (k : CacheKey) :
    (st.set_guild_staff_role_id guild_id staff_role_id = .ok () →
      Store.set_guild_staff_role_id st c guild_id staff_role_id =
        (c.invalidate_guild guild_id, .ok ())) ∧
    (st.set_guild_filter guild_id f = .ok () →
      Store.set_guild_filter st c guild_id f =
        (c.invalidate_guild guild_id, .ok ())) ∧
    (st.set_guild_volume guild_id v = .ok () →
      Store.set_guild_volume st c guild_id v =
        (c.invalidate_guild guild_id, .ok ())) ∧
    (st.set_guild_auto_leave guild_id al = .ok () →
      Store.set_guild_auto_leave st c guild_id al =
        (c.invalidate_guild guild_id, .ok ())) ∧
    (st.switch_guild_shuffle guild_id = .ok b →
      Store.switch_guild_shuffle st c guild_id =
        (c.invalidate_guild guild_id, .ok b)) ∧
    (st.switch_guild_loop guild_id = .ok b →
      Store.switch_guild_loop st c guild_id =
        (c.invalidate_guild guild_id, .ok b)) ∧
    ((c.invalidate_guild guild_id).cache.get (.int guild_id) = none ∧
     (k ≠ .int guild_id →
       (c.invalidate_guild guild_id).cache.get k = c.cache.get k)) ∧
    (st.set_guild_staff_role_id guild_id staff_role_id = .error e →
      Store.set_guild_staff_role_id st c guild_id staff_role_id =
        (c, .error e)) ∧
    (st.set_guild_filter guild_id f = .error e →
      Store.set_guild_filter st c guild_id f = (c, .error e)) ∧
    (st.set_guild_volume guild_id v = .error e →
      Store.set_guild_volume st c guild_id v = (c, .error e)) ∧
    (st.set_guild_auto_leave guild_id al = .error e →
      Store.set_guild_auto_leave st c guild_id al = (c, .error e)) ∧
    (st.switch_guild_shuffle guild_id = .error e →
      Store.switch_guild_shuffle st c guild_id = (c, .error e)) ∧
    (st.switch_guild_loop guild_id = .error e →
      Store.switch_guild_loop st c guild_id = (c, .error e)) := by
  refine ⟨?_, ?_, ?_, ?_, ?_, ?_, ⟨?_, ?_⟩, ?_, ?_, ?_, ?_, ?_, ?_⟩
  · intro h; simp [Store.set_guild_staff_role_id, h]
  · intro h; simp [Store.set_guild_filter, h]
  · intro h; simp [Store.set_guild_volume, h]
  · intro h; simp [Store.set_guild_auto_leave, h]
  · intro h; simp [Store.switch_guild_shuffle, h]
  · intro h; simp [Store.switch_guild_loop, h]
  · simp [TimedCache.invalidate_guild, TTLMap.get_pop]
  · intro hk; simp [TimedCache.invalidate_guild, TTLMap.get_pop, hk]
  · intro h; simp [Store.set_guild_staff_role_id, h]
  · intro h; simp [Store.set_guild_filter, h]
  · intro h; simp [Store.set_guild_volume, h]
  · intro h; simp [Store.set_guild_auto_leave, h]
  · intro h; simp [Store.switch_guild_shuffle, h]
  · intro h; simp [Store.switch_guild_loop, h]

/-- Witness for C5 at a concrete cache, guild and the two storage stubs:
a successful volume write invalidates, a raising one propagates with the
cache untouched, and a successful loop toggle invalidates and reports. -/
theorem c5_witness :
    Store.set_guild_volume storageOk cacheEmpty 1 42 =
      (cacheEmpty.invalidate_guild 1, .ok ()) ∧
    Store.set_guild_volume storageErr cacheEmpty 1 42 =
      (cacheEmpty, .error ()) ∧
    Store.switch_guild_loop storageOk cacheEmpty 1 =
      (cacheEmpty.invalidate_guild 1, .ok true) := by
  refine ⟨?_, ?_, ?_⟩
  · exact (c5_setters_write_through_then_invalidate storageOk cacheEmpty 1 0
      .normal 42 false true () (.str "w")).2.2.1 rfl
  · exact (c5_setters_write_through_then_invalidate storageErr cacheEmpty 1 0
      .normal 42 false true () (.str "w")).2.2.2.2.2.2.2.2.2.1 rfl
  · exact (c5_setters_write_through_then_invalidate storageOk cacheEmpty 1 0
      .normal 42 false true () (.str "w")).2.2.2.2.2.1 rfl

/-- C6: confirmed.  The whitelist mutations report whether membership
actually changed: adding reports true exactly when the ID was absent, so a
first add of an absent ID returns true and the immediate second add returns
false with the contents unchanged; removing reports true exactly when the
ID was present, and removing an absent ID (like adding a present one) is a
no-op that leaves the contents unchanged. -/
theorem c6_whitelist_mutation_reports_change (t : Finset Int)
    (c : TimedCache) (guild_id : Int) :
    ((Store.add_to_whitelist_sqlite t c guild_id).2.2 = true ↔ guild_id ∉ t) ∧
    (Store.add_to_whitelist_sqlite
        (Store.add_to_whitelist_sqlite t c guild_id).1 c guild_id).2.2 =
      false ∧
    (Store.add_to_whitelist_sqlite
        (Store.add_to_whitelist_sqlite t c guild_id).1 c guild_id).1 =
      (Store.add_to_whitelist_sqlite t c guild_id).1 ∧
    (guild_id ∈ t → (Store.add_to_whitelist_sqlite t c guild_id).1 = t) ∧
    ((Store.remove_from_whitelist_sqlite t c guild_id).2.2 = true ↔
      guild_id ∈ t) ∧
    (guild_id ∉ t → Store.remove_from_whitelist_sqlite t c guild_id =
      (t, c.invalidate_whitelist, false)) := by
  by_cases h : guild_id ∈ t <;>
    simp [Store.add_to_whitelist_sqlite, Store.remove_from_whitelist_sqlite,
      SQLiteStorage.add_to_whitelist, SQLiteStorage.remove_from_whitelist, h,
      Finset.mem_insert_self]

/-- Witness for C6 on the empty whitelist and ID 7: the first add reports
true, the second add reports false, and removing the absent ID reports
false with the whitelist unchanged. -/
theorem c6_witness :
    (Store.add_to_whitelist_sqlite ∅ cacheEmpty 7).2.2 = true ∧
    (Store.add_to_whitelist_sqlite
        (Store.add_to_whitelist_sqlite ∅ cacheEmpty 7).1 cacheEmpty 7).2.2 =
      false ∧
    Store.remove_from_whitelist_sqlite ∅ cacheEmpty 7 =
      (∅, cacheEmpty.invalidate_whitelist, false) := by
  have h := c6_whitelist_mutation_reports_change ∅ cacheEmpty 7
  exact ⟨h.1.mpr (by simp), h.2.1, h.2.2.2.2.2 (by simp)⟩

/-- C7 counterexample: with 399 tracks queued, a play request resolving to
a 2-track playlist would exceed the 400-track maximum, yet it is not
rejected with a capacity error: one track is enqueued (the result is
truncated) and the queue length changes from 399 to 400. -/
theorem c7_counterexample_partial_enqueue_not_rejected :
    (Music.playEnqueue (List.replicate 399 trackA) [trackA, trackB]).1 =
      .enqueued 1 ∧
    (Music.playEnqueue (List.replicate 399 trackA) [trackA, trackB]).1 ≠
      .queueFull ∧
    (Music.playEnqueue (List.replicate 399 trackA)
        [trackA, trackB]).2.length = 400 ∧
    (List.replicate 399 trackA).length = 399 := by
  have he : Music.playEnqueue (List.replicate 399 trackA) [trackA, trackB] =
      (.enqueued 1, List.replicate 399 trackA ++ [trackA]) := by
    unfold Music.playEnqueue
    rw [List.length_replicate]
    norm_num [MAX_QUEUE_SIZE, List.take_succ_cons, List.take_zero]
  rw [he]
  refine ⟨rfl, by decide, ?_, ?_⟩
  · rw [List.length_append, List.length_replicate]
    decide
  · rw [List.length_replicate]

/-- C7 amended: the play command rejects with the capacity error exactly
when the queue already holds the 400-track maximum, leaving the queue
unchanged; below the maximum it enqueues only up to the remaining free
capacity (truncating a multi-track result rather than rejecting it), so
the queue never grows past the maximum. -/
theorem c7_play_respects_capacity (queue tracks : List Track)
    (h : queue.length ≤ MAX_QUEUE_SIZE) :
    (queue.length = MAX_QUEUE_SIZE →
      Music.playEnqueue queue tracks = (.queueFull, queue)) ∧
    (queue.length < MAX_QUEUE_SIZE →
      Music.playEnqueue queue tracks =
        (.enqueued (min (MAX_QUEUE_SIZE - queue.length) tracks.length),
         queue ++ tracks.take (min (MAX_QUEUE_SIZE - queue.length)
           tracks.length))) ∧
    (Music.playEnqueue queue tracks).2.length ≤ MAX_QUEUE_SIZE := by
  refine ⟨?_, ?_, ?_⟩
  · intro hfull
    simp [Music.playEnqueue, hfull]
  · intro hlt
    have hne : MAX_QUEUE_SIZE - queue.length ≠ 0 := by
      simp only [MAX_QUEUE_SIZE] at hlt ⊢
      omega
    simp [Music.playEnqueue, hne]
  · by_cases hfull : MAX_QUEUE_SIZE - queue.length = 0
    · simpa [Music.playEnqueue, hfull] using h
    · simp only [MAX_QUEUE_SIZE] at hfull h ⊢
      simp only [Music.playEnqueue, MAX_QUEUE_SIZE]
      rw [if_neg hfull]
      simp only [List.length_append, List.length_take]
      omega

/-- Witness for C7 amended on the empty queue and a single track: the
request is not rejected and the track is appended. -/
theorem c7_witness :
    Music.playEnqueue [] [trackA] = (.enqueued 1, [trackA]) := by
  have h := (c7_play_respects_capacity [] [trackA]
    (by simp)).2.1 (by simp [MAX_QUEUE_SIZE])
  simpa [MAX_QUEUE_SIZE] using h

/-- C8: confirmed.  The jump and pop commands are 1-indexed against the
visible queue: position 0 is rejected by the command layer's Range lower
bound, and any position beyond the queue (or any position against an empty
queue) is reported — never silently clamped — with the queue unchanged;
for an in-range position, pop removes exactly the track at that position
(and reports it), and jump cuts the queue to the suffix starting at that
position, whose head it reports. -/
theorem c8_jump_pop_one_indexed_bounds (queue : List Track)
    (position : Nat) :
    (position = 0 →
      Music.jump queue position = (.rangeRejected, queue) ∧
      Music.pop queue position = (.rangeRejected, queue)) ∧
    (1 ≤ position → queue.length < position →
      Music.jump queue position =
        ((if queue = [] then .emptyQueue else .outOfRange queue.length),
         queue) ∧
      Music.pop queue position =
        ((if queue = [] then .emptyQueue else .outOfRange queue.length),
         queue)) ∧
    (1 ≤ position → position ≤ queue.length →
      Music.pop queue position =
        (.popped queue[position - 1]?, queue.eraseIdx (position - 1)) ∧
      Music.jump queue position =
        (.jumped (queue.drop (position - 1)).head?,
         queue.drop (position - 1))) := by
  refine ⟨?_, ?_, ?_⟩
  · intro h0
    subst h0
    simp [Music.jump, Music.pop]
  · intro h1 hgt
    have hnlt : ¬position < 1 := by omega
    have hnle : ¬position ≤ queue.length := by omega
    by_cases he : queue = [] <;>
      simp [Music.jump, Music.pop, hnlt, hnle, he]
  · intro h1 hle
    have hnlt : ¬position < 1 := by omega
    have hne : ¬queue = [] := by
      intro hq
      subst hq
      simp at hle
      omega
    refine ⟨by simp [Music.pop, hnlt, hne, hle], ?_⟩
    by_cases hp1 : 1 < position
    · simp [Music.jump, hnlt, hne, hle, hp1]
    · have hp : position = 1 := by omega
      subst hp
      simp [Music.jump, hne]

/-- Witness for C8 on the two-track queue: position 3 is reported out of
range with the queue unchanged, position 1 pops exactly the first track,
and position 2 jumps to the second track. -/
theorem c8_witness :
    Music.pop [trackA, trackB] 3 = (.outOfRange 2, [trackA, trackB]) ∧
    Music.pop [trackA, trackB] 1 = (.popped (some trackA), [trackB]) ∧
    Music.jump [trackA, trackB] 2 = (.jumped (some trackB), [trackB]) := by
  have h3 := (c8_jump_pop_one_indexed_bounds [trackA, trackB] 3).2.1
    (by omega) (by simp)
  have h1 := (c8_jump_pop_one_indexed_bounds [trackA, trackB] 1).2.2
    (by omega) (by simp)
  have h2 := (c8_jump_pop_one_indexed_bounds [trackA, trackB] 2).2.2
    (by omega) (by simp)
  refine ⟨?_, ?_, ?_⟩
  · simpa using h3.2
  · simpa using h1.1
  · simpa using h2.2

/-- C9: the claim is right and the code is wrong.  The queue-ended
listener is written to read the auto-leave flag freshly through
`store.get_guild` and release the voice presence when it is true, but the
store read always raises `TypeError` (the stale `Guild` dataclass, the C1
defect) before `auto_leave` is read: for every existing guild, every
durable table — including one whose row has `auto_leave` true — and every
cache state, `on_queue_end` raises with the connection, the cache and the
guild membership untouched, so the voice presence is never released. -/
theorem c9_queue_end_raises_before_auto_leave_read (db : GuildsTable)
    (c : TimedCache) (co : Bool) (gid : Int) :
    (Music.on_queue_end ⟨db, c, true, co⟩ gid).2 = some .typeError ∧
    (Music.on_queue_end ⟨db, c, true, co⟩ gid).1.connected = co ∧
    (Music.on_queue_end ⟨db, c, true, co⟩ gid).1.cache = c ∧
    (Music.on_queue_end ⟨db, c, true, co⟩ gid).1.guildExists = true := by
  have h := Music.decide_bot_presence_raises db c co gid
  refine ⟨?_, ?_, ?_, ?_⟩ <;> simp [Music.on_queue_end, h]

/-- C10: the claim is right and the code is wrong.  For a tenant that still
exists the listener does make exactly one advance attempt (a single play
call, no retry) and, when it raises, falls back to the very routine the
queue-ended listener uses — but that routine always raises `TypeError`
before reading the auto-leave flag (the C1 defect), so the claimed
idle/leave decision never occurs: the fallback leaves the connection as it
was and the exception escapes the listener. -/
theorem c10_load_failed_one_attempt_fallback_raises (db : GuildsTable)
    (c : TimedCache) (co : Bool) (gid : Int) :
    (Music.on_track_load_failed ⟨db, c, true, co⟩ gid .ok).2.1 = 1 ∧
    (Music.on_track_load_failed ⟨db, c, true, co⟩ gid .raised).2.1 = 1 ∧
    Music.on_track_load_failed ⟨db, c, true, co⟩ gid .ok =
      (⟨db, c, true, co⟩, 1, none) ∧
    (Music.on_track_load_failed ⟨db, c, true, co⟩ gid .raised).1 =
      (Music.on_queue_end ⟨db, c, true, co⟩ gid).1 ∧
    (Music.on_track_load_failed ⟨db, c, true, co⟩ gid .raised).2.2 =
      (Music.on_queue_end ⟨db, c, true, co⟩ gid).2 ∧
    (Music.on_track_load_failed ⟨db, c, true, co⟩ gid .raised).2.2 =
      some .typeError ∧
    (Music.on_track_load_failed ⟨db, c, true, co⟩ gid .raised).1.connected =
      co := by
  have h := Music.decide_bot_presence_raises db c co gid
  refine ⟨rfl, rfl, rfl, rfl, rfl, ?_, ?_⟩ <;>
    simp [Music.on_track_load_failed, h]

end IceBeat
